import Mathlib

/-!
Verification of the voice-agent repository (three Flask microservices:
ASR, TTS, VAD).  The definitions below are a shallow embedding of
`src/python-services/{vad,asr,tts}-service/app.py`.  Machine integers are
modelled as `Nat`/`Int`; 16-bit PCM decoding and base64 decoding follow the
semantics of `numpy.frombuffer(dtype=int16)` and `base64.b64decode`
respectively.  The internals of `silero_vad.VADIterator` (the per-session
hysteresis state machine) are an external library, not part of src; they are
modelled from the specification (sections 3, 4.1 and 7 of spec.md) and marked
as such in their doc comments.
-/

namespace VoiceAgent

/-! ## Base64 decoding (model of Python base64.b64decode, validate=False) -/

/-- Value of a standard base64 alphabet character, `none` for other
characters. -/
def b64Val (c : Char) : Option Nat :=
  if 'A' ≤ c ∧ c ≤ 'Z' then some (c.toNat - 65)
  else if 'a' ≤ c ∧ c ≤ 'z' then some (c.toNat - 97 + 26)
  else if '0' ≤ c ∧ c ≤ '9' then some (c.toNat - 48 + 52)
  else if c = '+' then some 62
  else if c = '/' then some 63
  else none

/-- Decode a filtered base64 character stream, four characters at a time,
honouring trailing padding.  A leftover of one to three characters, or
padding that does not terminate the stream, is a decoding error, matching
binascii raising on invalid padding. -/
def b64decodeCore : List Char → Except String (List Nat)
  | [] => .ok []
  | [c1, c2, '=', '='] =>
    match b64Val c1, b64Val c2 with
    | some a, some b => .ok [a * 4 + b / 16]
    | _, _ => .error "Invalid base64-encoded string"
  | [c1, c2, c3, '='] =>
    match b64Val c1, b64Val c2, b64Val c3 with
    | some a, some b, some c =>
      .ok [a * 4 + b / 16, b % 16 * 16 + c / 4]
    | _, _, _ => .error "Invalid base64-encoded string"
  | c1 :: c2 :: c3 :: c4 :: rest =>
    match b64Val c1, b64Val c2, b64Val c3, b64Val c4 with
    | some a, some b, some c, some d =>
      match b64decodeCore rest with
      | .ok tail => .ok ([a * 4 + b / 16, b % 16 * 16 + c / 4, c % 4 * 64 + d] ++ tail)
      | .error e => .error e
    | _, _, _, _ => .error "Invalid padding"
  | _ => .error "Invalid base64-encoded string"

/-- Model of `base64.b64decode(s)` with the default `validate=False`:
characters outside the alphabet and the pad character are discarded, then the
remainder is decoded in quads.  Returns the decoded byte values (0..255). -/
def b64decode (s : String) : Except String (List Nat) :=
  b64decodeCore (s.data.filter fun c => (b64Val c).isSome || c = '=')

/-! ## PCM16 decoding (model of np.frombuffer(audio_bytes, dtype=np.int16)) -/

/-- Model of `np.frombuffer(bytes, dtype=np.int16)`: bytes are paired
little-endian into signed 16-bit values; a buffer whose length is not a
multiple of two raises a ValueError. -/
def pcm16OfBytes : List Nat → Except String (List Int)
  | [] => .ok []
  | [_] => .error "buffer size must be a multiple of element size"
  | lo :: hi :: rest =>
    match pcm16OfBytes rest with
    | .ok tail =>
      let v := lo + 256 * hi
      .ok ((if v < 32768 then (v : Int) else (v : Int) - 65536) :: tail)
    | .error e => .error e

/-- Model of `int2float` (vad-service app.py line 36): the sample is divided
by the fixed full-scale divisor 32768.0.  Since every int16 value is exactly
representable in float32 and 32768 is a power of two, the float32 arithmetic
of the source is exact and is modelled over the rationals. -/
def int2float (i : Int) : ℚ :=
  (i : ℚ) / 32768

/-! ## VAD session state machine

The constants mirror vad-service app.py lines 18-20. -/

def SAMPLING_RATE : ℕ := 16000

/-- The constant `THRESHOLD = 0.5` (app.py line 19): the rational one half,
written in reduced normal form so that comparisons against it evaluate by
kernel reduction. -/
def THRESHOLD : ℚ := ⟨1, 2, by decide, by decide⟩

/-- THRESHOLD is the number one half. -/
theorem THRESHOLD_eq : THRESHOLD = 1 / 2 := by
  rw [show THRESHOLD = (⟨1, 2, by decide, by decide⟩ : ℚ) from rfl, Rat.mk'_eq_divInt,
    Rat.divInt_eq_div]
  norm_num

def MIN_SILENCE_DURATION_MS : ℕ := 500

/-- The two phases of a VAD session (spec section 3: `phase` is one of
SILENCE, SPEECH). -/
inductive Phase where
  | silence
  | speech
deriving DecidableEq, Repr

/-- A boundary event: `start ts` is a speech-start event, `stop ts` is a
speech-end event, each carrying a sample timestamp. -/
inductive VadEvent where
  | start (ts : ℕ)
  | stop (ts : ℕ)
deriving DecidableEq, Repr

/-- Modelled from the spec: the per-session state of silero_vad.VADIterator
(spec section 3, Data Model).  The iterator implementation is an external
library, not in src; its fields follow the spec: configuration (threshold,
sampling_rate, min_silence_duration), `phase`, `silence_run` (accumulated
sub-threshold samples while in SPEECH) and `cursor` (total samples
consumed). -/
structure Session where
  threshold : ℚ
  sampling_rate : ℕ
  min_silence_ms : ℕ
  phase : Phase
  silence_run : ℕ
  cursor : ℕ
deriving DecidableEq, Repr

/-- The session produced by `VADIterator(vad_model, threshold=THRESHOLD,
sampling_rate=SAMPLING_RATE, min_silence_duration_ms=MIN_SILENCE_DURATION_MS)`
(vad-service app.py lines 28-33): default configuration, initial phase
SILENCE, zero counters. -/
def Session.initial : Session :=
  ⟨THRESHOLD, SAMPLING_RATE, MIN_SILENCE_DURATION_MS, .silence, 0, 0⟩

/-- The minimum silence duration converted from milliseconds to samples at
the session's sampling rate. -/
def Session.minSilenceSamples (s : Session) : ℕ :=
  s.min_silence_ms * s.sampling_rate / 1000

/-- Modelled from the spec: the hysteresis rule of spec section 4.1 applied
to one chunk, given the frame-level speech probability `prob` for the chunk
and the chunk's sample count `n`.  The cursor advances by `n` on every call;
a start event carries the cursor before the chunk, an end event carries the
cursor after the chunk minus the accumulated silence run (the spec leaves
the exact end-timestamp convention open, section 9; no theorem below
depends on it). -/
def sessionStep (s : Session) (prob : ℚ) (n : ℕ) : Session × Option VadEvent :=
  match s.phase with
  | .silence =>
    if s.threshold ≤ prob then
      ({ s with phase := .speech, silence_run := 0, cursor := s.cursor + n },
        some (.start s.cursor))
    else
      ({ s with cursor := s.cursor + n }, none)
  | .speech =>
    if s.threshold ≤ prob then
      ({ s with silence_run := 0, cursor := s.cursor + n }, none)
    else
      if s.silence_run + n < s.minSilenceSamples then
        ({ s with silence_run := s.silence_run + n, cursor := s.cursor + n }, none)
      else
        ({ s with phase := .silence, silence_run := s.silence_run + n, cursor := s.cursor + n },
          some (.stop (s.cursor + n - (s.silence_run + n))))

/-- Modelled from the spec: `VADIterator.reset_states` clears the session
back to its initial dynamic state (phase SILENCE, silence run 0, cursor 0)
without touching its configuration (spec section 4.1, reset operation). -/
def Session.reset_states (s : Session) : Session :=
  { s with phase := .silence, silence_run := 0, cursor := 0 }

/-! ## The session table (the module-level `vad_iterators` dict) -/

/-- The `vad_iterators` dictionary: a finite-map model, one optional live
session per session id. -/
def SessionTable : Type := String → Option Session

/-- The table at service start: `vad_iterators = {}` (app.py line 22). -/
def emptyTable : SessionTable := fun _ => none

/-- Update one key of the session table (Python dict item assignment). -/
def tableSet (t : SessionTable) (sid : String) (s : Session) : SessionTable :=
  fun k => if k = sid then some s else t k

/-- Model of `get_vad_iterator` (vad-service app.py lines 26-34): if the id
has no live session, a session with the process-wide default configuration
is inserted; the (possibly extended) table and the session for the id are
returned. -/
def get_vad_iterator (t : SessionTable) (session_id : String) : SessionTable × Session :=
  match t session_id with
  | some s => (t, s)
  | none => (tableSet t session_id Session.initial, Session.initial)

/-! ## Request bodies and responses -/

/-- The JSON body of a request to the VAD service.  `absent` models a request
whose body cannot be loaded as JSON (no body / wrong content type), for which
Flask `request.get_json()` raises; `null` models the JSON literal null, for
which `get_json()` returns Python None; `obj` models a JSON object with the
two recognised optional fields. -/
inductive VadBody where
  | absent
  | null
  | obj (audio_data : Option String) (session_id : Option String)
deriving DecidableEq, Repr

/-- The session id a VAD request body refers to: the `session_id` field when
present, else the `"default"` sentinel (`data.get("session_id", "default")`,
and `{}` for a None body in `reset_vad`). -/
def VadBody.sid : VadBody → String
  | .obj _ session_id => session_id.getD "default"
  | _ => "default"

/-- Response of the `/vad` handler.  `event` is the HTTP 200 body
`\x7bstatus, timestamp\x7d`; `missingAudioData` is the HTTP 400 branch at
app.py line 50; `err` is the HTTP 500 branch of the catch-all handler at
line 71, carrying the error message. -/
inductive VadResponse where
  | event (e : Option VadEvent)
  | missingAudioData
  | err (msg : String)
deriving DecidableEq, Repr

/-- HTTP status code of a `/vad` response. -/
def VadResponse.code : VadResponse → ℕ
  | .event _ => 200
  | .missingAudioData => 400
  | .err _ => 500

/-- Response of the `/reset` handler: HTTP 200 `\x7bstatus: "reset"\x7d` or the
HTTP 500 catch-all. -/
inductive ResetResponse where
  | reset
  | err (msg : String)
deriving DecidableEq, Repr

/-- HTTP status code of a `/reset` response. -/
def ResetResponse.code : ResetResponse → ℕ
  | .reset => 200
  | .err _ => 500

/-! ## The /vad handler -/

/-- Model of the `vad_detect` handler (vad-service app.py lines 44-71).
The body is wrapped in try/except, so every raise inside it becomes the
`err` (HTTP 500) response:
an unloadable body makes `request.get_json()` raise; a None body makes the
membership test `"audio_data" not in data` raise TypeError; base64/PCM
decoding errors raise.  The external `VADIterator.__call__` is modelled, per
spec section 4.1, as the frame-level `scorer` followed by `sessionStep`; a
scorer failure raises without touching the session state (spec section 7),
but note the session has already been resolved (and, for a fresh id,
created) by `get_vad_iterator` at line 57, before the iterator call at
line 59. -/
def vad_detect (scorer : List ℚ → Except String ℚ) (t : SessionTable)
    (body : VadBody) : SessionTable × VadResponse :=
  match body with
  | .absent => (t, .err "get_json failed: Unsupported Media Type")
  | .null => (t, .err "TypeError: argument of type NoneType is not iterable")
  | .obj audio_data session_id =>
    match audio_data with
    | none => (t, .missingAudioData)
    | some a =>
      match b64decode a with
      | .error e => (t, .err e)
      | .ok audioBytes =>
        match pcm16OfBytes audioBytes with
        | .error e => (t, .err e)
        | .ok audioInt16 =>
          let audioFloat32 := audioInt16.map int2float
          let sid := session_id.getD "default"
          match scorer audioFloat32 with
          | .error e => ((get_vad_iterator t sid).1, .err e)
          | .ok prob =>
            (tableSet (get_vad_iterator t sid).1 sid
                (sessionStep (get_vad_iterator t sid).2 prob audioInt16.length).1,
              .event (sessionStep (get_vad_iterator t sid).2 prob audioInt16.length).2)

/-! ## The /reset handler -/

/-- Model of the `reset_vad` handler (vad-service app.py lines 73-87).
`request.get_json() or \x7b\x7d` turns a None body into the empty dict, but an
unloadable body makes `get_json()` raise before the `or` applies, landing in
the catch-all.  An id with a live session has `reset_states()` called on it;
an unknown id is left alone; both return `\x7bstatus: "reset"\x7d`. -/
def reset_vad (t : SessionTable) (body : VadBody) : SessionTable × ResetResponse :=
  match body with
  | .absent => (t, .err "get_json failed: Unsupported Media Type")
  | _ =>
    match t body.sid with
    | some s => (tableSet t body.sid s.reset_states, .reset)
    | none => (t, .reset)

/-! ## The ASR service (asr-service app.py) -/

/-- An uploaded file as seen through `request.files["file"]`: only the
filename matters to the handler's control flow. -/
structure AsrFile where
  filename : String
deriving DecidableEq, Repr

/-- A `/recognize` request: `file` is `request.files["file"]` when the field
is present. -/
structure AsrRequest where
  file : Option AsrFile
deriving DecidableEq, Repr

/-- The behaviour of the external collaborators during one `/recognize`
request: `generate` is the outcome of `model.generate` followed by
`rich_transcription_postprocess` (on success, the transcript and the
detected language, with `res[0].get("language", "unknown")` already
applied); `removeFails` says whether `os.remove(temp_file)` raises. -/
structure AsrOutcome where
  generate : Except String (String × String)
  removeFails : Bool
deriving Repr

/-- The fate of the staged temporary file over one `/recognize` request:
whether `file.save(temp_file)` ran, and whether the file still exists when
the handler returns. -/
structure AsrTempState where
  staged : Bool
  present : Bool
deriving DecidableEq, Repr

/-- Response of the `/recognize` handler: HTTP 200 with transcript and
language, the two HTTP 400 validation branches, or the HTTP 500
catch-all. -/
inductive AsrResponse where
  | ok (text language : String)
  | noFile
  | emptyFilename
  | err (msg : String)
deriving DecidableEq, Repr

/-- HTTP status code of a `/recognize` response. -/
def AsrResponse.code : AsrResponse → ℕ
  | .ok _ _ => 200
  | .noFile => 400
  | .emptyFilename => 400
  | .err _ => 500

/-- Model of the `recognize` handler (asr-service app.py lines 33-73).
After the validation branches the upload is staged to a temp file, the model
is invoked, and only on the success path is `os.remove(temp_file)` attempted
inside `try/except: pass` (lines 59-62): a deletion failure is suppressed and
the 200 response is returned regardless.  When `model.generate` (or the
post-processing) raises, control jumps to the outer catch-all and the
`os.remove` is never reached, so the temp file stays present. -/
def recognize (req : AsrRequest) (out : AsrOutcome) : AsrTempState × AsrResponse :=
  match req.file with
  | none => (⟨false, false⟩, .noFile)
  | some f =>
    if f.filename = "" then (⟨false, false⟩, .emptyFilename)
    else
      match out.generate with
      | .error e => (⟨true, true⟩, .err e)
      | .ok (text, language) => (⟨true, out.removeFails⟩, .ok text language)

/-! ## The TTS service (tts-service app.py) -/

/-- Default voice: `os.getenv("TTS_VOICE", "zh-CN-XiaoxiaoNeural")` with the
environment override out of scope. -/
def DEFAULT_VOICE : String := "zh-CN-XiaoxiaoNeural"

/-- The JSON body of a `/tts` request, with the same three shapes as
`VadBody`. -/
inductive TtsBody where
  | absent
  | null
  | obj (text : Option String) (voice : Option String)
deriving DecidableEq, Repr

/-- Response of the `/tts` handler: the streamed audio file, the two HTTP
400 validation branches, or the HTTP 500 catch-all. -/
inductive TtsResponse where
  | audio (file : String)
  | missingText
  | emptyText
  | err (msg : String)
deriving DecidableEq, Repr

/-- HTTP status code of a `/tts` response. -/
def TtsResponse.code : TtsResponse → ℕ
  | .audio _ => 200
  | .missingText => 400
  | .emptyText => 400
  | .err _ => 500

/-- Model of the `text_to_speech` handler (tts-service app.py lines 33-74).
`synth text voice` is the outcome of running `generate_tts` to completion on
a fresh event loop, returning the temp file path on success.  Python
`text.strip()` is modelled by `String.trim`; a whitespace-only text is the
HTTP 400 empty-text branch.  Everything is inside try/except, so an
unloadable body (`get_json` raises), a None body (`"text" not in data`
raises TypeError) and a synthesis failure all become the `err` (HTTP 500)
response. -/
def text_to_speech (synth : String → String → Except String String)
    (body : TtsBody) : TtsResponse :=
  match body with
  | .absent => .err "get_json failed: Unsupported Media Type"
  | .null => .err "TypeError: argument of type NoneType is not iterable"
  | .obj text voice =>
    match text with
    | none => .missingText
    | some tx =>
      if tx.trim = "" then .emptyText
      else
        match synth tx (voice.getD DEFAULT_VOICE) with
        | .error e => .err e
        | .ok f => .audio f

/-! ## Event alternation (claim C1) -/

/-- Whether an event is a start event. -/
def VadEvent.isStart : VadEvent → Bool
  | .start _ => true
  | .stop _ => false

/-- The kind of boundary a session in this phase would emit next: in SILENCE
the next boundary is a start, in SPEECH it is an end. -/
def Phase.expectStart : Phase → Bool
  | .silence => true
  | .speech => false

/-- Run a session over a list of chunks, each given by its frame-level speech
probability and its sample count, collecting the emitted events in order. -/
def runSession : Session → List (ℚ × ℕ) → Session × List VadEvent
  | s, [] => (s, [])
  | s, c :: rest =>
    ((runSession (sessionStep s c.1 c.2).1 rest).1,
      (sessionStep s c.1 c.2).2.toList ++ (runSession (sessionStep s c.1 c.2).1 rest).2)

/-- The events of `evs` strictly alternate, the first being a start event
when `b` is true and an end event when `b` is false. -/
def alternatesFrom : Bool → List VadEvent → Bool
  | _, [] => true
  | b, e :: es => (e.isStart == b) && alternatesFrom (!b) es

/-- One step either emits no event and keeps the phase, or emits the event
the phase expects and flips the expected kind. -/
theorem sessionStep_phase_event (s : Session) (p : ℚ) (n : ℕ) :
    ((sessionStep s p n).2 = none ∧ (sessionStep s p n).1.phase = s.phase) ∨
    (∃ e, (sessionStep s p n).2 = some e ∧ e.isStart = s.phase.expectStart ∧
      (sessionStep s p n).1.phase.expectStart = !s.phase.expectStart) := by
  unfold sessionStep
  cases hph : s.phase <;>
    simp only [Phase.expectStart] <;>
    split_ifs <;>
    simp [VadEvent.isStart, Phase.expectStart]

/-- Starting from any session, the emitted event stream alternates according
to the starting phase. -/
theorem runSession_alternates (chunks : List (ℚ × ℕ)) :
    ∀ s : Session, alternatesFrom s.phase.expectStart (runSession s chunks).2 = true := by
  induction chunks with
  | nil => intro s; rfl
  | cons c rest ih =>
    intro s
    rcases sessionStep_phase_event s c.1 c.2 with ⟨h1, h2⟩ | ⟨e, h1, h2, h3⟩
    · have hrec := ih (sessionStep s c.1 c.2).1
      rw [h2] at hrec
      simpa [runSession, h1] using hrec
    · have hrec := ih (sessionStep s c.1 c.2).1
      rw [h3] at hrec
      simpa [runSession, h1, alternatesFrom, h2] using hrec

/-- C1: for every session, over any sequence of process calls, the sequence
of non-null events emitted by the VAD engine alternates strictly — a start
is never followed by another start without an intervening end, an end never
by another end without an intervening start — and the first emitted event is
a start.  Stated on the engine run from the initial session state (phase
SILENCE): `alternatesFrom true` holds of the emitted event list, which says
exactly that the list alternates beginning with a start event. -/
theorem vad_events_alternate (chunks : List (ℚ × ℕ)) :
    alternatesFrom true (runSession Session.initial chunks).2 = true :=
  runSession_alternates chunks Session.initial

/-! ## Error-path behaviour of /vad and /reset (claims C2, C3, C10) -/

/-- Resolving one session id never disturbs the entry of any live
session. -/
theorem get_vad_iterator_preserves (t : SessionTable) (sid0 sid : String)
    (s : Session) (h : t sid = some s) : (get_vad_iterator t sid0).1 sid = some s := by
  unfold get_vad_iterator
  cases ht : t sid0 with
  | some s0 => simpa using h
  | none =>
    by_cases he : sid = sid0
    · rw [he] at h; rw [h] at ht; exact absurd ht (by simp)
    · simpa [tableSet, he] using h

/-- C2 counterexample: a POST /vad request whose audio_data field is present
but not valid base64-encoded 16-bit PCM (here the one-character string "A",
which base64.b64decode rejects) is answered with HTTP 500, not the HTTP 400
the claim asserts. -/
theorem vad_malformed_audio_counterexample :
    (vad_detect (fun _ => .ok 0) emptyTable (.obj (some "A") none)).2.code = 500 ∧
    (vad_detect (fun _ => .ok 0) emptyTable (.obj (some "A") none)).2.code ≠ 400 := by
  constructor <;> decide

/-- C2 (amended): for every POST /vad request whose audio_data field is
present but not valid base64-encoded 16-bit PCM, the handler fails before
the frame-level scorer is invoked — the result is the same for every scorer
and the session table is untouched — but the failure is reported as HTTP 500
by the generic exception handler, not as HTTP 400. -/
theorem vad_malformed_audio_before_scorer (t : SessionTable) (a : String)
    (osid : Option String) (e : String) :
    (b64decode a = .error e →
      ∀ scorer, vad_detect scorer t (.obj (some a) osid) = (t, .err e)) ∧
    (∀ bytes, b64decode a = .ok bytes → pcm16OfBytes bytes = .error e →
      ∀ scorer, vad_detect scorer t (.obj (some a) osid) = (t, .err e)) ∧
    (VadResponse.err e).code = 500 := by
  refine ⟨fun h scorer => ?_, fun bytes hb hp scorer => ?_, rfl⟩
  · simp [vad_detect, h]
  · simp [vad_detect, hb, hp]

/-- Witness for C2 (amended): an invalid base64 string and a valid base64
string decoding to an odd number of bytes each yield the HTTP 500 response
with the decoder's message, with the table untouched. -/
theorem vad_malformed_audio_before_scorer_witness :
    vad_detect (fun _ => .ok 0) emptyTable (.obj (some "A") none)
      = (emptyTable, .err "Invalid base64-encoded string") ∧
    vad_detect (fun _ => .ok 0) emptyTable (.obj (some "AA==") none)
      = (emptyTable, .err "buffer size must be a multiple of element size") :=
  ⟨(vad_malformed_audio_before_scorer emptyTable "A" none
      "Invalid base64-encoded string").1 rfl _,
    (vad_malformed_audio_before_scorer emptyTable "AA==" none
      "buffer size must be a multiple of element size").2.1 [0] rfl rfl _⟩

/-- C3: when the frame-level scorer invocation fails, the handler returns a
ProcessingError (HTTP 500) and every session that was live before the call
still maps to exactly the state — phase, silence run, sample cursor and
configuration — that it had before the failed call.  The failing call
mutates no session (spec-modelled, see `vad_detect`); the only table change
the source allows is the lazy creation of a fresh default session for a
previously unknown id, which happens before the iterator call. -/
theorem vad_scorer_failure_atomic (scorer : List ℚ → Except String ℚ)
    (t : SessionTable) (a : String) (osid : Option String)
    (bytes : List Nat) (samples : List Int) (e : String)
    (hb : b64decode a = .ok bytes) (hp : pcm16OfBytes bytes = .ok samples)
    (hs : scorer (samples.map int2float) = .error e) :
    (vad_detect scorer t (.obj (some a) osid)).2 = .err e ∧
    (vad_detect scorer t (.obj (some a) osid)).2.code = 500 ∧
    ∀ sid s, t sid = some s → (vad_detect scorer t (.obj (some a) osid)).1 sid = some s := by
  have hv : vad_detect scorer t (.obj (some a) osid)
      = ((get_vad_iterator t (osid.getD "default")).1, .err e) := by
    simp [vad_detect, hb, hp, hs]
  refine ⟨by rw [hv], by rw [hv]; rfl, fun sid s h => ?_⟩
  rw [hv]
  exact get_vad_iterator_preserves t (osid.getD "default") sid s h

/-- A scorer that always fails, for the C3 witness. -/
def failScorer : List ℚ → Except String ℚ := fun _ => .error "scorer failure"

/-- A table holding one live session, for witnesses. -/
def oneSessionTable : SessionTable := tableSet emptyTable "w" Session.initial

/-- Witness for C3: on a table holding the live session "w", a request whose
audio decodes to three samples but whose scorer fails yields the HTTP 500
response and leaves session "w" exactly as it was. -/
theorem vad_scorer_failure_atomic_witness :
    (vad_detect failScorer oneSessionTable (.obj (some "AAAAAAAA") none)).2
      = .err "scorer failure" ∧
    (vad_detect failScorer oneSessionTable (.obj (some "AAAAAAAA") none)).2.code = 500 ∧
    (vad_detect failScorer oneSessionTable (.obj (some "AAAAAAAA") none)).1 "w"
      = some Session.initial := by
  have h := vad_scorer_failure_atomic failScorer oneSessionTable "AAAAAAAA" none
    [0, 0, 0, 0, 0, 0] [0, 0, 0] "scorer failure" rfl rfl rfl
  exact ⟨h.1, h.2.1, h.2.2 "w" Session.initial rfl⟩

/-- C10 counterexample: a POST /reset whose body cannot be loaded as JSON is
answered with HTTP 500, not the HTTP 200 the claim asserts, because
request.get_json() raises before the or-default fallback applies. -/
theorem reset_absent_body_counterexample :
    (reset_vad emptyTable .absent).2.code = 500 ∧
    (reset_vad emptyTable .absent).2.code ≠ 200 := by
  constructor <;> decide

/-- C10 (amended): POST /vad with a body that is not a JSON object — absent
or JSON null — returns HTTP 500 with an error body rather than HTTP 400 and
leaves the table unchanged (for the null body because the membership test
for audio_data raises before the 400 branch can be taken); by contrast POST
/reset returns HTTP 200 with status reset for the JSON-null body, but for an
absent body /reset also returns HTTP 500, since request.get_json() raises
before the or-default fallback can substitute the empty dict. -/
theorem vad_reset_non_object_bodies (scorer : List ℚ → Except String ℚ)
    (t : SessionTable) :
    (vad_detect scorer t .absent).2.code = 500 ∧
    (vad_detect scorer t .null).2.code = 500 ∧
    (vad_detect scorer t .absent).1 = t ∧
    (vad_detect scorer t .null).1 = t ∧
    (reset_vad t .null).2 = .reset ∧
    (reset_vad t .absent).2.code = 500 := by
  refine ⟨rfl, rfl, rfl, rfl, ?_, rfl⟩
  unfold reset_vad
  cases ht : t (VadBody.sid .null) <;> simp [ht]

/-! ## Reset idempotence and lazy session creation (claims C5, C6) -/

/-- Reading back the key just written. -/
theorem tableSet_same (t : SessionTable) (sid : String) (a : Session) :
    tableSet t sid a sid = some a := by
  simp [tableSet]

/-- Writing the same key twice keeps only the last value. -/
theorem tableSet_tableSet (t : SessionTable) (sid : String) (a b : Session) :
    tableSet (tableSet t sid a) sid b = tableSet t sid b := by
  funext k
  by_cases h : k = sid <;> simp [tableSet, h]

/-- Resetting a session's dynamic state twice is the same as once. -/
theorem reset_states_idem (s : Session) :
    s.reset_states.reset_states = s.reset_states := rfl

/-- Resolving one id never touches the entry of a different id. -/
theorem get_vad_iterator_other (t : SessionTable) (sid0 sid : String)
    (h : sid ≠ sid0) : (get_vad_iterator t sid0).1 sid = t sid := by
  unfold get_vad_iterator
  cases ht : t sid0 <;> simp [tableSet, h]

/-- C5: reset is idempotent — for every session-table state and every
request body, running /reset twice in a row produces the same final table
and the same response as running it once — and for a session id with no
live session, /reset (with a loadable body) leaves the table untouched and
still returns the success response. -/
theorem reset_idempotent (t : SessionTable) (body : VadBody) :
    reset_vad (reset_vad t body).1 body = reset_vad t body ∧
    (t body.sid = none → body ≠ .absent → reset_vad t body = (t, .reset)) := by
  constructor
  · cases body with
    | absent => rfl
    | null =>
      cases ht : t (VadBody.sid .null) with
      | none => simp [reset_vad, ht]
      | some s => simp [reset_vad, ht, tableSet_same, tableSet_tableSet, reset_states_idem]
    | obj ad osid =>
      cases ht : t (VadBody.sid (.obj ad osid)) with
      | none => simp [reset_vad, ht]
      | some s => simp [reset_vad, ht, tableSet_same, tableSet_tableSet, reset_states_idem]
  · intro h hne
    cases body with
    | absent => exact absurd rfl hne
    | null => simp [reset_vad, h]
    | obj ad osid => simp [reset_vad, h]

/-- Witness for C5: on the empty table, resetting the unknown id "x" twice
equals resetting it once, and the single reset is a no-op returning the
success response. -/
theorem reset_idempotent_witness :
    reset_vad (reset_vad emptyTable (.obj none (some "x"))).1 (.obj none (some "x"))
      = reset_vad emptyTable (.obj none (some "x")) ∧
    reset_vad emptyTable (.obj none (some "x")) = (emptyTable, .reset) := by
  have h := reset_idempotent emptyTable (.obj none (some "x"))
  exact ⟨h.1, h.2 rfl (by decide)⟩

/-- C6 counterexample: the first reset call for a fresh session id does not
create a session — after POST /reset on the never-seen id "x", the table
still has no live session for "x" (reset_vad only resets ids already in the
table; only get_vad_iterator, reached from /vad, inserts). -/
theorem reset_creates_no_session_counterexample :
    (reset_vad emptyTable (.obj none (some "x"))).1 "x" = none := rfl

/-- C6 (amended): a Session for a given session_id is created lazily, with
the default parameters, on the first process (audio chunk) call that
resolves that id; a reset call for an unknown id does not create a session;
afterwards each session_id maps to at most one live Session that subsequent
calls mutate in place — resolving the id again returns that session without
changing the table, and neither handler touches the entry of any other
id. -/
theorem session_lazy_creation (t : SessionTable) (sid : String) :
    (t sid = none →
      get_vad_iterator t sid = (tableSet t sid Session.initial, Session.initial)) ∧
    (∀ s, t sid = some s → get_vad_iterator t sid = (t, s)) ∧
    (∀ body, t sid = none → (reset_vad t body).1 sid = none) ∧
    (∀ body, body.sid ≠ sid → (reset_vad t body).1 sid = t sid) ∧
    (∀ scorer body, body.sid ≠ sid → (vad_detect scorer t body).1 sid = t sid) := by
  refine ⟨fun h => by simp [get_vad_iterator, h], fun s h => by simp [get_vad_iterator, h],
    fun body h => ?_, fun body h => ?_, fun scorer body h => ?_⟩
  · cases body with
    | absent => exact h
    | null =>
      cases ht : t (VadBody.sid .null) with
      | none => simpa [reset_vad, ht] using h
      | some s =>
        have hne : sid ≠ VadBody.sid .null := fun he => by rw [he, ht] at h; exact absurd h (by simp)
        simpa [reset_vad, ht, tableSet, hne] using h
    | obj ad osid =>
      cases ht : t (VadBody.sid (.obj ad osid)) with
      | none => simpa [reset_vad, ht] using h
      | some s =>
        have hne : sid ≠ VadBody.sid (.obj ad osid) := fun he => by
          rw [he, ht] at h; exact absurd h (by simp)
        simpa [reset_vad, ht, tableSet, hne] using h
  · cases body with
    | absent => rfl
    | null =>
      cases ht : t (VadBody.sid .null) with
      | none => simp [reset_vad, ht]
      | some s =>
        have hne : sid ≠ VadBody.sid .null := fun he => h he.symm
        simp [reset_vad, ht, tableSet, hne]
    | obj ad osid =>
      cases ht : t (VadBody.sid (.obj ad osid)) with
      | none => simp [reset_vad, ht]
      | some s =>
        have hne : sid ≠ VadBody.sid (.obj ad osid) := fun he => h he.symm
        simp [reset_vad, ht, tableSet, hne]
  · cases body with
    | absent => rfl
    | null => rfl
    | obj ad osid =>
      cases ad with
      | none => rfl
      | some a =>
        cases hb : b64decode a with
        | error e => simp [vad_detect, hb]
        | ok bytes =>
          cases hp : pcm16OfBytes bytes with
          | error e => simp [vad_detect, hb, hp]
          | ok samples =>
            cases hs : scorer (samples.map int2float) with
            | error e =>
              simp only [vad_detect, hb, hp, hs]
              exact get_vad_iterator_other t _ sid (fun he => h (by simpa [VadBody.sid] using he.symm))
            | ok prob =>
              simp only [vad_detect, hb, hp, hs]
              have hne : sid ≠ VadBody.sid (.obj (some a) osid) :=
                fun he => h he.symm
              rw [show tableSet (get_vad_iterator t (osid.getD "default")).1 (osid.getD "default")
                  (sessionStep (get_vad_iterator t (osid.getD "default")).2 prob samples.length).1 sid
                  = (get_vad_iterator t (osid.getD "default")).1 sid from by
                simp [tableSet, show sid ≠ osid.getD "default" from hne]]
              exact get_vad_iterator_other t _ sid hne

/-- Witness for C6 (amended): concrete instances of each conjunct — lazy
creation on an empty table, in-place resolution of a live session, a reset
that creates nothing, and handlers leaving unrelated ids alone. -/
theorem session_lazy_creation_witness :
    get_vad_iterator emptyTable "x" = (tableSet emptyTable "x" Session.initial, Session.initial) ∧
    get_vad_iterator oneSessionTable "w" = (oneSessionTable, Session.initial) ∧
    (reset_vad emptyTable (.obj none (some "x"))).1 "y" = none ∧
    (reset_vad oneSessionTable (.obj none (some "w"))).1 "v" = oneSessionTable "v" ∧
    (vad_detect failScorer emptyTable (.obj (some "AAAAAAAA") (some "w"))).1 "z" = emptyTable "z" := by
  refine ⟨(session_lazy_creation emptyTable "x").1 rfl,
    (session_lazy_creation oneSessionTable "w").2.1 Session.initial (by simp [oneSessionTable, tableSet]),
    (session_lazy_creation emptyTable "y").2.2.1 (.obj none (some "x")) rfl,
    (session_lazy_creation oneSessionTable "v").2.2.2.1 (.obj none (some "w")) (by decide),
    (session_lazy_creation emptyTable "z").2.2.2.2 failScorer (.obj (some "AAAAAAAA") (some "w"))
      (by decide)⟩

/-! ## The fixed-configuration invariant (claim C9) -/

/-- A session carries the process-wide fixed configuration: threshold 0.5,
sampling rate 16000, minimum silence duration 500 ms. -/
def Session.defaultConfig (s : Session) : Prop :=
  s.threshold = THRESHOLD ∧ s.sampling_rate = SAMPLING_RATE ∧
    s.min_silence_ms = MIN_SILENCE_DURATION_MS

/-- Every live session of the table carries the fixed configuration. -/
def configOK (t : SessionTable) : Prop :=
  ∀ sid s, t sid = some s → s.defaultConfig

/-- The session-table states reachable from service start by any sequence of
/vad and /reset requests, with arbitrary bodies and arbitrary scorer
behaviour. -/
inductive Reachable : SessionTable → Prop where
  | init : Reachable emptyTable
  | vad (scorer : List ℚ → Except String ℚ) (body : VadBody) {t : SessionTable} :
      Reachable t → Reachable (vad_detect scorer t body).1
  | reset (body : VadBody) {t : SessionTable} :
      Reachable t → Reachable (reset_vad t body).1

/-- Stepping a session never changes its configuration. -/
theorem sessionStep_defaultConfig (s : Session) (p : ℚ) (n : ℕ)
    (h : s.defaultConfig) : (sessionStep s p n).1.defaultConfig := by
  obtain ⟨h1, h2, h3⟩ := h
  unfold sessionStep
  cases s.phase <;> split_ifs <;> exact ⟨h1, h2, h3⟩

/-- Resetting a session never changes its configuration. -/
theorem reset_states_defaultConfig (s : Session) (h : s.defaultConfig) :
    s.reset_states.defaultConfig := h

/-- The freshly created session carries the fixed configuration. -/
theorem initial_defaultConfig : Session.initial.defaultConfig :=
  ⟨rfl, rfl, rfl⟩

/-- Writing a well-configured session preserves the table invariant. -/
theorem configOK_tableSet (t : SessionTable) (sid : String) (s : Session)
    (ht : configOK t) (hs : s.defaultConfig) : configOK (tableSet t sid s) := by
  intro k s0 hk
  unfold tableSet at hk
  by_cases he : k = sid
  · rw [if_pos he] at hk
    cases hk
    exact hs
  · rw [if_neg he] at hk
    exact ht k s0 hk

/-- Resolving an id preserves the table invariant and hands back a
well-configured session. -/
theorem configOK_get_vad_iterator (t : SessionTable) (sid : String)
    (ht : configOK t) :
    configOK (get_vad_iterator t sid).1 ∧ (get_vad_iterator t sid).2.defaultConfig := by
  unfold get_vad_iterator
  cases hs : t sid with
  | some s => exact ⟨ht, ht sid s hs⟩
  | none => exact ⟨configOK_tableSet t sid Session.initial ht initial_defaultConfig,
      initial_defaultConfig⟩

/-- The /vad handler preserves the table invariant. -/
theorem configOK_vad_detect (scorer : List ℚ → Except String ℚ)
    (t : SessionTable) (body : VadBody) (ht : configOK t) :
    configOK (vad_detect scorer t body).1 := by
  cases body with
  | absent => exact ht
  | null => exact ht
  | obj ad osid =>
    cases ad with
    | none => exact ht
    | some a =>
      cases hb : b64decode a with
      | error e => simpa [vad_detect, hb] using ht
      | ok bytes =>
        cases hp : pcm16OfBytes bytes with
        | error e => simpa [vad_detect, hb, hp] using ht
        | ok samples =>
          cases hs : scorer (samples.map int2float) with
          | error e =>
            simp only [vad_detect, hb, hp, hs]
            exact (configOK_get_vad_iterator t _ ht).1
          | ok prob =>
            simp only [vad_detect, hb, hp, hs]
            exact configOK_tableSet _ _ _ (configOK_get_vad_iterator t _ ht).1
              (sessionStep_defaultConfig _ _ _ (configOK_get_vad_iterator t _ ht).2)

/-- The /reset handler preserves the table invariant. -/
theorem configOK_reset_vad (t : SessionTable) (body : VadBody) (ht : configOK t) :
    configOK (reset_vad t body).1 := by
  cases body with
  | absent => exact ht
  | null =>
    cases hs : t (VadBody.sid .null) with
    | none => simpa [reset_vad, hs] using ht
    | some s =>
      simp only [reset_vad, hs]
      exact configOK_tableSet _ _ _ ht (reset_states_defaultConfig s (ht _ s hs))
  | obj ad osid =>
    cases hs : t (VadBody.sid (.obj ad osid)) with
    | none => simpa [reset_vad, hs] using ht
    | some s =>
      simp only [reset_vad, hs]
      exact configOK_tableSet _ _ _ ht (reset_states_defaultConfig s (ht _ s hs))

/-- Every reachable table satisfies the fixed-configuration invariant. -/
theorem reachable_configOK (t : SessionTable) (h : Reachable t) : configOK t := by
  induction h with
  | init => intro k s0 hk; exact absurd hk (by simp [emptyTable])
  | vad scorer body hr ih => exact configOK_vad_detect scorer _ body ih
  | reset body hr ih => exact configOK_reset_vad _ body ih

/-- C9: every Session ever created is constructed with the identical,
process-wide fixed configuration — threshold 0.5, sampling rate 16000,
minimum silence duration 500 ms — and no request field or operation can set
a different configuration for any session: in every table state reachable by
any sequence of /vad and /reset requests, every live session carries exactly
that configuration. -/
theorem sessions_fixed_config (t : SessionTable) (h : Reachable t)
    (sid : String) (s : Session) (hs : t sid = some s) :
    s.threshold = THRESHOLD ∧ s.sampling_rate = SAMPLING_RATE ∧
      s.min_silence_ms = MIN_SILENCE_DURATION_MS :=
  reachable_configOK t h sid s hs

/-- A scorer that always reports probability 1, for witnesses. -/
def okScorer : List ℚ → Except String ℚ := fun _ => .ok 1

/-- A /vad body whose audio decodes to three zero samples, for witnesses. -/
def reachBody : VadBody := .obj (some "AAAAAAAA") none

/-- The default session after one high-probability three-sample chunk. -/
def witnessSession : Session :=
  ⟨THRESHOLD, SAMPLING_RATE, MIN_SILENCE_DURATION_MS, .speech, 0, 3⟩

/-- Witness for C9: the table reached by one successful /vad request holds
the session `witnessSession` for the default id, and the theorem yields its
fixed configuration. -/
theorem sessions_fixed_config_witness :
    witnessSession.threshold = THRESHOLD ∧ witnessSession.sampling_rate = SAMPLING_RATE ∧
      witnessSession.min_silence_ms = MIN_SILENCE_DURATION_MS :=
  sessions_fixed_config (vad_detect okScorer emptyTable reachBody).1
    (Reachable.vad okScorer reachBody Reachable.init) "default" witnessSession (by decide)

/-! ## Normalization bounds (claim C7) -/

/-- C7: int2float divides each sample by exactly 32768 — a fixed divisor,
not a measured peak — so on every array of 16-bit signed samples the mapped
output lies in the half-open range from -1 inclusive to 1 exclusive;
-32768 maps to -1 and 32767 maps to 32767/32768, which is below 1. -/
theorem int2float_range (xs : List Int)
    (h : ∀ i ∈ xs, -32768 ≤ i ∧ i ≤ 32767) :
    xs.map int2float = xs.map (fun i : Int => (i : ℚ) / 32768) ∧
    (∀ q ∈ xs.map int2float, -1 ≤ q ∧ q < 1) ∧
    int2float (-32768) = -1 ∧
    int2float 32767 = 32767 / 32768 ∧
    ((32767 : ℚ) / 32768) < 1 := by
  refine ⟨rfl, ?_, by norm_num [int2float], by norm_num [int2float], by norm_num⟩
  intro q hq
  simp only [List.mem_map] at hq
  obtain ⟨i, hi, rfl⟩ := hq
  obtain ⟨h1, h2⟩ := h i hi
  unfold int2float
  constructor
  · rw [le_div_iff₀ (by norm_num : (0 : ℚ) < 32768)]
    have : (-32768 : ℚ) ≤ (i : ℚ) := by exact_mod_cast h1
    linarith
  · rw [div_lt_one (by norm_num : (0 : ℚ) < 32768)]
    have : (i : ℚ) ≤ 32767 := by exact_mod_cast h2
    linarith

/-- Witness for C7: the three-sample array holding both extremes. -/
theorem int2float_range_witness :
    ([(-32768 : Int), 0, 32767].map int2float
      = [(-32768 : Int), 0, 32767].map fun i : Int => (i : ℚ) / 32768) ∧
    int2float (-32768) = -1 := by
  have h := int2float_range [(-32768 : Int), 0, 32767] (by decide)
  exact ⟨h.1, h.2.2.1⟩

/-! ## ASR temp-file lifecycle (claim C4) -/

/-- C4 counterexample: on a request whose staged audio makes the model call
fail, the handler returns the 500 error and the temporary file is still
present — it is not deleted on the model-failure path, contrary to the
claim that deletion happens on both paths. -/
theorem asr_temp_leak_counterexample :
    recognize ⟨some ⟨"a.wav"⟩⟩ ⟨.error "model failure", false⟩
      = (⟨true, true⟩, .err "model failure") := rfl

/-- C4 (amended): for every /recognize request that stages the uploaded
audio to a temporary file, on the success path the temporary file is deleted
best-effort after the model call — the file remains only if the deletion
itself fails, and that failure is suppressed, never surfacing in the
response, which is the 200 transcript either way; on the model-failure path
the handler returns the 500 error and the temporary file is not deleted. -/
theorem asr_temp_file_cleanup (req : AsrRequest) (out : AsrOutcome) (f : AsrFile)
    (hf : req.file = some f) (hn : f.filename ≠ "") :
    (∀ text lang, out.generate = .ok (text, lang) →
      recognize req out = (⟨true, out.removeFails⟩, .ok text lang)) ∧
    (∀ e, out.generate = .error e →
      recognize req out = (⟨true, true⟩, .err e)) := by
  constructor
  · intro text lang hg
    simp [recognize, hf, hn, hg]
  · intro e hg
    simp [recognize, hf, hn, hg]

/-- Witness for C4 (amended): the success path deletes the file when
os.remove succeeds, keeps it (with the same 200 response) when os.remove
fails, and the failure path keeps it. -/
theorem asr_temp_file_cleanup_witness :
    recognize ⟨some ⟨"a.wav"⟩⟩ ⟨.ok ("hi", "zh"), false⟩ = (⟨true, false⟩, .ok "hi" "zh") ∧
    recognize ⟨some ⟨"a.wav"⟩⟩ ⟨.ok ("hi", "zh"), true⟩ = (⟨true, true⟩, .ok "hi" "zh") ∧
    recognize ⟨some ⟨"a.wav"⟩⟩ ⟨.error "boom", false⟩ = (⟨true, true⟩, .err "boom") := by
  refine ⟨(asr_temp_file_cleanup _ _ ⟨"a.wav"⟩ rfl (by decide)).1 "hi" "zh" rfl,
    (asr_temp_file_cleanup _ _ ⟨"a.wav"⟩ rfl (by decide)).1 "hi" "zh" rfl,
    (asr_temp_file_cleanup _ _ ⟨"a.wav"⟩ rfl (by decide)).2 "boom" rfl⟩

/-! ## Handler totality (claim C8) -/

/-- Every /vad response carries one of the three implemented statuses. -/
theorem vadResponse_code_range (r : VadResponse) :
    r.code = 200 ∨ r.code = 400 ∨ r.code = 500 := by
  cases r <;> simp [VadResponse.code]

/-- Every /reset response carries one of the two implemented statuses. -/
theorem resetResponse_code_range (r : ResetResponse) :
    r.code = 200 ∨ r.code = 500 := by
  cases r <;> simp [ResetResponse.code]

/-- Every /recognize response carries one of the three implemented
statuses. -/
theorem asrResponse_code_range (r : AsrResponse) :
    r.code = 200 ∨ r.code = 400 ∨ r.code = 500 := by
  cases r <;> simp [AsrResponse.code]

/-- Every /tts response carries one of the three implemented statuses. -/
theorem ttsResponse_code_range (r : TtsResponse) :
    r.code = 200 ∨ r.code = 400 ∨ r.code = 500 := by
  cases r <;> simp [TtsResponse.code]

/-- C8: for every request to any of the POST handlers — /vad, /reset,
/recognize, /tts — over every body shape (including unloadable and null
bodies) and every behaviour of the external collaborators (scorer, ASR
model, TTS synthesis, file deletion), the handler returns an HTTP response
with status 200, 400 or 500: in the embedding each handler is a total
function into its response type, the try/except boundary of the source
mapping every internal failure to the 500 error response, so no input makes
an exception escape the handler. -/
theorem handlers_catch_all (scorer : List ℚ → Except String ℚ) (t : SessionTable)
    (vbody rbody : VadBody) (req : AsrRequest) (out : AsrOutcome)
    (synth : String → String → Except String String) (tbody : TtsBody) :
    ((vad_detect scorer t vbody).2.code = 200 ∨ (vad_detect scorer t vbody).2.code = 400 ∨
      (vad_detect scorer t vbody).2.code = 500) ∧
    ((reset_vad t rbody).2.code = 200 ∨ (reset_vad t rbody).2.code = 500) ∧
    ((recognize req out).2.code = 200 ∨ (recognize req out).2.code = 400 ∨
      (recognize req out).2.code = 500) ∧
    ((text_to_speech synth tbody).code = 200 ∨ (text_to_speech synth tbody).code = 400 ∨
      (text_to_speech synth tbody).code = 500) :=
  ⟨vadResponse_code_range _, resetResponse_code_range _, asrResponse_code_range _,
    ttsResponse_code_range _⟩

end VoiceAgent
